import Mathlib

/-!
Verification of the base-class layer of the `can-scrapers` repository
(`can_tools/scrapers/official/base.py`): the SQL upsert-template builder
`StateDashboard._insert_query`, the ArcGIS fetch helper (`arcgis_query_url`,
`_esri_ts_to_dt`, `get_all_sheet_to_df`) and the SODA URL builder
(`soda_query_url`).

Python strings are modelled as `List Char` (`PyStr`); Python dicts of query
parameters as insertion-ordered association lists; the paginated HTTP fetch
loop as a fuel-indexed recursion over an abstract server (a function from
request index to response); Python object references (needed for the
aliasing / non-mutation claim about `self.params`) as indices into an
explicit heap of dictionaries.
-/

namespace CanScrapers

set_option maxRecDepth 200000

/-- Model of a Python `str`: a list of characters. -/
abbrev PyStr := List Char

/-- The check `leadsWith pat s` is true when `pat` is an initial segment of `s`
(Python `s.startswith(pat)`). -/
def leadsWith : PyStr → PyStr → Bool
  | [], _ => true
  | _ :: _, [] => false
  | p :: ps, c :: cs => p == c && leadsWith ps cs

/-- The check `hasSub pat s` is true when `pat` occurs contiguously inside `s`
(Python `pat in s`). -/
def hasSub (pat : PyStr) : PyStr → Bool
  | [] => pat.isEmpty
  | c :: cs => leadsWith pat (c :: cs) || hasSub pat cs

/-- Space or tab, the characters `textwrap.dedent` treats as indentation. -/
def isWsChar (c : Char) : Bool := c == ' ' || c == '\t'

/-- Split a string at newline characters (Python `text.split('\n')`). -/
def splitOnNl : PyStr → List PyStr
  | [] => [[]]
  | c :: cs =>
    let rest := splitOnNl cs
    if c == '\n' then [] :: rest
    else
      match rest with
      | [] => [[c]]
      | l :: ls => (c :: l) :: ls

/-- Re-join lines with newline characters (inverse of `splitOnNl`). -/
def joinNl : List PyStr → PyStr
  | [] => []
  | [l] => l
  | l :: ls => l ++ '\n' :: joinNl ls

/-- A line consisting solely of (one or more) whitespace characters:
`textwrap.dedent` normalizes such lines to empty lines. -/
def wsOnly (l : PyStr) : Bool := !l.isEmpty && l.all isWsChar

/-- The leading run of spaces/tabs of a line. -/
def leadingWs (l : PyStr) : PyStr := l.takeWhile isWsChar

/-- Longest common initial segment of two strings, as computed by the
final branch of CPython's margin loop in `textwrap.dedent`. -/
def commonPre : PyStr → PyStr → PyStr
  | a :: xs, b :: ys => if a == b then a :: commonPre xs ys else []
  | _, _ => []

/-- CPython `textwrap.dedent` margin computation: fold over the leading
whitespace of every line that has content. -/
def marginOf (indents : List PyStr) : PyStr :=
  match indents with
  | [] => []
  | m :: rest =>
    rest.foldl
      (fun margin ind =>
        if leadsWith margin ind then margin
        else if leadsWith ind margin then ind
        else commonPre margin ind)
      m

/-- Model of `textwrap.dedent`: whitespace-only lines are normalized to
empty, the common leading-whitespace margin of the remaining lines is
computed, and that margin is stripped from the start of every line that
carries it. -/
def pyDedent (text : PyStr) : PyStr :=
  let lines := (splitOnNl text).map (fun l => if wsOnly l then [] else l)
  let indents := (lines.filter (fun l => !l.isEmpty)).map leadingWs
  let margin := marginOf indents
  if margin.isEmpty then joinNl lines
  else joinNl (lines.map (fun l => if leadsWith margin l then l.drop margin.length else l))

/-- Model of a pandas `DataFrame` as far as `_insert_query` observes it:
iterating a DataFrame (`list(df)`) yields its column labels; the row
values are carried but never inspected by the template builder. -/
structure DataFrame where
  columns : List PyStr
  rows : List (List PyStr)

/-- Class constant `StateDashboard.provider`. -/
def StateDashboard_provider : PyStr := "state".data

/-- Class constant `StateDashboard.table_name`. -/
def StateDashboard_table_name : PyStr := "covid_official".data

/-- Class constant `StateDashboard.pk`. -/
def StateDashboard_pk : PyStr :=
  "(\"vintage\", \"dt\", \"location\", \"variable_id\", \"demographic_id\")".data

/-- Python `str(i)` for an `int`. -/
def pyStrOfInt (i : Int) : PyStr := (toString i).data

/-- The f-string template of the `has_location` branch of
`StateDashboard._insert_query` (source lines 49-60), before `textwrap.dedent`. -/
def insertTemplateLoc (provider table_name temp_name pk : PyStr) : PyStr :=
  "\n            INSERT INTO data.".data ++ table_name ++
  " (\n              vintage, dt, location, variable_id, demographic_id, value, provider\n            )\n            SELECT tt.vintage, tt.dt, tt.location, cv.id as variable_id,\n                   cd.id as demographic_id, tt.value, cp.id\n            FROM ".data ++ temp_name ++
  " tt\n            LEFT JOIN meta.covid_variables cv ON tt.category=cv.category AND tt.measurement=cv.measurement AND tt.unit=cv.unit\n            LEFT JOIN data.covid_providers cp ON \x27".data ++ provider ++
  "\x27=cp.name\n            INNER JOIN meta.covid_demographics cd ON tt.age=cd.age AND tt.race=cd.race AND tt.sex=cd.sex\n            ON CONFLICT ".data ++ pk ++
  " DO UPDATE set value = excluded.value\n            ".data

/-- The f-string template of the `county` branch of
`StateDashboard._insert_query` (source lines 62-77), before `textwrap.dedent`. -/
def insertTemplateCounty (provider : PyStr) (state_fips : Int)
    (table_name temp_name pk : PyStr) : PyStr :=
  "\n            INSERT INTO data.".data ++ table_name ++
  " (\n              vintage, dt, location, variable_id, demographic_id, value, provider\n            )\n            SELECT tt.vintage, tt.dt, loc.location, cv.id as variable_id,\n                   cd.id as demographic_id, tt.value, cp.id\n            FROM ".data ++ temp_name ++
  " tt\n            LEFT JOIN meta.locations loc on tt.county=loc.name\n            LEFT JOIN meta.location_type loct on loc.location_type=loct.id\n            LEFT JOIN meta.covid_variables cv ON tt.category=cv.category AND tt.measurement=cv.measurement AND tt.unit=cv.unit\n            LEFT JOIN data.covid_providers cp ON \x27".data ++ provider ++
  "\x27=cp.name\n            INNER JOIN meta.covid_demographics cd ON tt.age=cd.age AND tt.race=cd.race AND tt.sex=cd.sex\n            WHERE (loc.state = LPAD(".data ++ pyStrOfInt state_fips ++
  "::TEXT, 2, \x270\x27)) AND\n                  (loct.name = \x27county\x27)\n            ON CONFLICT ".data ++ pk ++
  " DO UPDATE SET value = excluded.value\n            ".data

/-- Error message raised by `_insert_query` when the DataFrame carries no
recognized geography column (source lines 79-81). -/
def insertQueryErrMsg : PyStr :=
  "None of the expected geographies were included in the insert DataFrame".data

/-- Model of `StateDashboard._insert_query` (source lines 47-83).
`has_location`, `provider` and `state_fips` stand for the scraper instance
attributes `self.has_location`, `self.provider`, `self.state_fips`; the
`raise ValueError` is modelled as `Except.error`. -/
def insert_query (has_location : Bool) (provider : PyStr) (state_fips : Int)
    (df : DataFrame) (table_name temp_name pk : PyStr) : Except PyStr PyStr :=
  if has_location then
    Except.ok (pyDedent (insertTemplateLoc provider table_name temp_name pk))
  else if "county".data ∈ df.columns then
    Except.ok (pyDedent (insertTemplateCounty provider state_fips table_name temp_name pk))
  else
    Except.error insertQueryErrMsg

/-- The check `okSatisfies e p` holds when `e` carries a success value satisfying the
boolean check `p`. -/
def okSatisfies (e : Except PyStr PyStr) (p : PyStr → Bool) : Bool :=
  match e with
  | Except.ok s => p s
  | Except.error _ => false

/-- C2: for every result-set DataFrame, when the scraper's `has_location`
flag is true, the SQL produced by `_insert_query` (here at the class
constants `provider = "state"`, `table_name = "covid_official"`, the default
primary key, staging table `temp_covid`, arbitrary `state_fips`) selects
`tt.location` directly in its SELECT list and contains no join to
`meta.locations` or `meta.location_type`. -/
theorem insert_query_has_location_selects_tt_location
    (df : DataFrame) (state_fips : Int) :
    okSatisfies
      (insert_query true StateDashboard_provider state_fips df
        StateDashboard_table_name "temp_covid".data StateDashboard_pk)
      (fun s =>
        hasSub "SELECT tt.vintage, tt.dt, tt.location".data s &&
        !hasSub "meta.locations".data s &&
        !hasSub "meta.location_type".data s) = true := by
  have h : insert_query true StateDashboard_provider state_fips df
      StateDashboard_table_name "temp_covid".data StateDashboard_pk =
      Except.ok (pyDedent (insertTemplateLoc StateDashboard_provider
        StateDashboard_table_name "temp_covid".data StateDashboard_pk)) := rfl
  rw [h]
  decide

/-- Witness: C2's theorem applied at a concrete DataFrame and fips code. -/
theorem insert_query_has_location_selects_tt_location_witness :
    okSatisfies
      (insert_query true StateDashboard_provider 6
        (DataFrame.mk ["county".data, "value".data] [])
        StateDashboard_table_name "temp_covid".data StateDashboard_pk)
      (fun s =>
        hasSub "SELECT tt.vintage, tt.dt, tt.location".data s &&
        !hasSub "meta.locations".data s &&
        !hasSub "meta.location_type".data s) = true :=
  insert_query_has_location_selects_tt_location
    (DataFrame.mk ["county".data, "value".data] []) 6

/-- C3: for every result-set DataFrame lacking a `location` column but
containing a `county` column, with `has_location` false (here at the class
constants, staging table `temp_covid`, and declared fips code 6), the SQL
produced by `_insert_query` joins staging rows to `meta.locations` by county
name and filters on `loc.state = LPAD(6::TEXT, 2, '0')` and
`loct.name = 'county'`. -/
theorem insert_query_county_branch_filters
    (df : DataFrame)
    (hc : "county".data ∈ df.columns) (hl : "location".data ∉ df.columns) :
    okSatisfies
      (insert_query false StateDashboard_provider 6 df
        StateDashboard_table_name "temp_covid".data StateDashboard_pk)
      (fun s =>
        hasSub "LEFT JOIN meta.locations loc on tt.county=loc.name".data s &&
        hasSub "loc.state = LPAD(6::TEXT, 2, \x270\x27)".data s &&
        hasSub "loct.name = \x27county\x27".data s) = true := by
  have h : insert_query false StateDashboard_provider 6 df
      StateDashboard_table_name "temp_covid".data StateDashboard_pk =
      Except.ok (pyDedent (insertTemplateCounty StateDashboard_provider 6
        StateDashboard_table_name "temp_covid".data StateDashboard_pk)) := by
    simp [insert_query, hc]
  rw [h]
  decide

/-- Witness: C3's theorem applied at a concrete DataFrame with a `county`
column and no `location` column. -/
theorem insert_query_county_branch_filters_witness :
    okSatisfies
      (insert_query false StateDashboard_provider 6
        (DataFrame.mk ["county".data, "value".data] [])
        StateDashboard_table_name "temp_covid".data StateDashboard_pk)
      (fun s =>
        hasSub "LEFT JOIN meta.locations loc on tt.county=loc.name".data s &&
        hasSub "loc.state = LPAD(6::TEXT, 2, \x270\x27)".data s &&
        hasSub "loct.name = \x27county\x27".data s) = true :=
  insert_query_county_branch_filters
    (DataFrame.mk ["county".data, "value".data] []) (by decide) (by decide)

/-- C4: for every result-set DataFrame with `has_location` false and no
`county` column, `_insert_query` fails deterministically with the
ValueError-equivalent configuration error, regardless of the other columns
and of every other argument; the error propagates to the caller. -/
theorem insert_query_no_geography_fails
    (provider : PyStr) (state_fips : Int) (df : DataFrame)
    (table_name temp_name pk : PyStr)
    (h : "county".data ∉ df.columns) :
    insert_query false provider state_fips df table_name temp_name pk =
      Except.error insertQueryErrMsg := by
  simp [insert_query, h]

/-- Witness: C4's theorem applied at a concrete DataFrame with unrelated
columns. -/
theorem insert_query_no_geography_fails_witness :
    insert_query false "state".data 6
      (DataFrame.mk ["dt".data, "value".data] []) "covid_official".data
      "temp_covid".data "pk".data = Except.error insertQueryErrMsg :=
  insert_query_no_geography_fails "state".data 6
    (DataFrame.mk ["dt".data, "value".data] []) "covid_official".data
    "temp_covid".data "pk".data (by decide)

/-- C10: the output of `_insert_query` depends only on the scraper's
configuration, the table/temp/pk arguments and the set of column names of
the DataFrame, never on row values: any two DataFrames with the same
column-name sets produce identical results (the model is a pure function,
so no side effects on inputs). -/
theorem insert_query_depends_only_on_columns
    (has_location : Bool) (provider : PyStr) (state_fips : Int)
    (df1 df2 : DataFrame) (table_name temp_name pk : PyStr)
    (h : ∀ c, c ∈ df1.columns ↔ c ∈ df2.columns) :
    insert_query has_location provider state_fips df1 table_name temp_name pk =
      insert_query has_location provider state_fips df2 table_name temp_name pk := by
  have e : ("county".data ∈ df1.columns) = ("county".data ∈ df2.columns) :=
    propext (h "county".data)
  simp only [insert_query, e]

/-- Witness: C10's theorem applied at two concrete DataFrames with the same
columns but different row values. -/
theorem insert_query_depends_only_on_columns_witness :
    insert_query false "state".data 6
      (DataFrame.mk ["county".data] [["Alameda".data]]) "covid_official".data
      "temp_covid".data "pk".data =
    insert_query false "state".data 6
      (DataFrame.mk ["county".data] [["Orange".data]]) "covid_official".data
      "temp_covid".data "pk".data :=
  insert_query_depends_only_on_columns false "state".data 6
    (DataFrame.mk ["county".data] [["Alameda".data]])
    (DataFrame.mk ["county".data] [["Orange".data]]) "covid_official".data
    "temp_covid".data "pk".data (fun _ => Iff.rfl)

/-- Model of `ArcGIS.arcgis_query_url` (source lines 128-153): two f-string
concatenations over `srvid`, `self.ARCGIS_ID`, `service` and `sheet`.  A
total pure function with no input validation, exactly like the source. -/
def arcgis_query_url (arcgisID service sheet srvid : PyStr) : PyStr :=
  ("https://services".data ++ srvid ++ ".arcgis.com/".data ++ arcgisID ++ "/".data) ++
  ("ArcGIS/rest/services/".data ++ service ++ "/FeatureServer/".data ++ sheet ++ "/query".data)

/-- C6: `arcgis_query_url` applied to service `X`, sheet `0`, server id `1`
on a scraper whose `ARCGIS_ID` is `ABC` returns exactly
`https://services1.arcgis.com/ABC/ArcGIS/rest/services/X/FeatureServer/0/query`
(the model is, by construction, a deterministic total string function of its
three arguments and `ARCGIS_ID`, with no input validation). -/
theorem arcgis_query_url_concrete :
    arcgis_query_url "ABC".data "X".data "0".data "1".data =
      "https://services1.arcgis.com/ABC/ArcGIS/rest/services/X/FeatureServer/0/query".data := by
  decide

/-- Model of `SODA.soda_query_url` (source lines 297-315):
`self.baseurl + f"/{resource}/{data_id}.{ftype}"`; the Python defaults are
`resource="resource"`, `ftype="json"`. -/
def soda_query_url (baseurl data_id resource ftype : PyStr) : PyStr :=
  baseurl ++ ("/".data ++ resource ++ "/".data ++ data_id ++ ".".data ++ ftype)

/-- C8: `soda_query_url` applied to data id `abcd-1234` with the default
resource (`resource`) and format (`json`) on a scraper whose `baseurl` is
`https://example.org` returns exactly
`https://example.org/resource/abcd-1234.json`; in general it returns the
concatenation `{baseurl}/{resource}/{data_id}.{ftype}`. -/
theorem soda_query_url_spec :
    soda_query_url "https://example.org".data "abcd-1234".data
        "resource".data "json".data =
      "https://example.org/resource/abcd-1234.json".data ∧
    ∀ baseurl data_id resource ftype : PyStr,
      soda_query_url baseurl data_id resource ftype =
        baseurl ++ "/".data ++ resource ++ "/".data ++ data_id ++ ".".data ++ ftype := by
  refine ⟨by decide, fun b d r f => ?_⟩
  simp [soda_query_url, List.append_assoc]

/-- Calendar date (year, month, day, proleptic Gregorian) of a count of days
since 1970-01-01: the standard civil-from-days algorithm. -/
def civilFromDays (z0 : Int) : Int × Int × Int :=
  let z := z0 + 719468
  let era := Int.ediv z 146097
  let doe := z - era * 146097
  let yoe := Int.ediv (doe - Int.ediv doe 1460 + Int.ediv doe 36524 - Int.ediv doe 146096) 365
  let y := yoe + era * 400
  let doy := doe - (365 * yoe + Int.ediv yoe 4 - Int.ediv yoe 100)
  let mp := Int.ediv (5 * doy + 2) 153
  let d := doy - Int.ediv (153 * mp + 2) 5 + 1
  let m := if mp < 10 then mp + 3 else mp - 9
  (if m ≤ 2 then y + 1 else y, m, d)

/-- The method `pandas.Timestamp.fromtimestamp` converts a POSIX timestamp (seconds) to
a timezone-naive timestamp in the process-local timezone, like
`datetime.fromtimestamp`.  A naive timestamp is modelled as its count of
local seconds since 1970-01-01T00:00:00 local; the host timezone enters as
an explicit UTC-offset parameter in seconds. -/
def pd_Timestamp_fromtimestamp (posixSec tzOffsetSec : Int) : Int :=
  posixSec + tzOffsetSec

/-- The method `pandas.Timestamp.normalize`: truncate a (naive) timestamp to midnight
of its calendar day. -/
def pd_Timestamp_normalize (t : Int) : Int := 86400 * Int.ediv t 86400

/-- Model of `ArcGIS._esri_ts_to_dt` (source lines 124-126):
`pd.Timestamp.fromtimestamp(ts / 1000).normalize()`.  `ts / 1000` is Python
float division; the claims evaluate it only at multiples of 1000, where it
is exact, so it is modelled by integer division. -/
def esri_ts_to_dt (ts tzOffsetSec : Int) : Int :=
  pd_Timestamp_normalize (pd_Timestamp_fromtimestamp (Int.ediv ts 1000) tzOffsetSec)

/-- The calendar date of a (naive) timestamp. -/
def tsCalendarDate (t : Int) : Int × Int × Int := civilFromDays (Int.ediv t 86400)

/-- The time-of-day component of a (naive) timestamp, in seconds. -/
def tsSecondsOfDay (t : Int) : Int := t - 86400 * Int.ediv t 86400

/-- C7 (amended): on a host whose local timezone is UTC (offset 0),
`_esri_ts_to_dt` applied to the epoch-millisecond integer `1609459200000`
(2021-01-01T00:00:00Z) returns the calendar date 2021-01-01 with a zero
time-of-day component. -/
theorem esri_ts_to_dt_utc_date :
    tsCalendarDate (esri_ts_to_dt 1609459200000 0) = (2021, 1, 1) ∧
    tsSecondsOfDay (esri_ts_to_dt 1609459200000 0) = 0 := by
  constructor <;> decide

/-- C7 counterexample: `pd.Timestamp.fromtimestamp` converts to host-local
time, so on a host one hour west of UTC (offset -3600 s, e.g. UTC-1)
`_esri_ts_to_dt(1609459200000)` normalizes to the local calendar date
2020-12-31, not 2021-01-01 as claimed. -/
theorem esri_ts_to_dt_local_tz_counterexample :
    tsCalendarDate (esri_ts_to_dt 1609459200000 (-3600)) = (2020, 12, 31) ∧
    ((2020, 12, 31) : Int × Int × Int) ≠ (2021, 1, 1) := by
  constructor <;> decide

/-- A scalar query-parameter value (string or int), as stored in the
`params` dict of `ArcGIS`. -/
inductive ParamVal where
  | str (s : PyStr)
  | int (i : Int)
deriving DecidableEq

/-- A Python dict of query parameters, modelled as an insertion-ordered
association list with unique keys. -/
abbrev ParamDict := List (PyStr × ParamVal)

/-- Python `d.update(\x7bk: v\x7d)` on a dict: replace the value of an existing
key in place, or append a new key at the end. -/
def dictUpdate : ParamDict → PyStr → ParamVal → ParamDict
  | [], k, v => [(k, v)]
  | (k0, v0) :: rest, k, v =>
    if k0 = k then (k0, v) :: rest else (k0, v0) :: dictUpdate rest k v

/-- Python `d[k]` lookup on a dict. -/
def dictLookup : ParamDict → PyStr → Option ParamVal
  | [], _ => none
  | (k0, v0) :: rest, k => if k0 = k then some v0 else dictLookup rest k

theorem dictLookup_dictUpdate_self (d : ParamDict) (k : PyStr) (v : ParamVal) :
    dictLookup (dictUpdate d k v) k = some v := by
  induction d with
  | nil => simp [dictUpdate, dictLookup]
  | cons p rest ih =>
    by_cases hk : p.1 = k
    · simp [dictUpdate, dictLookup, hk]
    · simp [dictUpdate, dictLookup, hk, ih]

/-- One entry of the `features` array of an ArcGIS JSON response; only its
`attributes` object is consumed by the scraper. -/
structure Feature where
  attributes : ParamDict

/-- The part of an ArcGIS JSON response observed by `get_all_sheet_to_df`:
the `features` array and the optional `exceededTransferLimit` flag
(`res_json.get("exceededTransferLimit", False)`). -/
structure ArcResponse where
  features : List Feature
  exceededTransferLimit : Option Bool

/-- Model of `ArcGIS.arcgis_json_to_df` (source lines 183-200): one row per
entry of `res_json["features"]`, carrying that entry's `attributes`. -/
def arcgis_json_to_df (res : ArcResponse) : List ParamDict :=
  res.features.map Feature.attributes

/-- A heap of Python dict objects; a reference is an index into `cells`.
Needed to express the aliasing facts about `self.params` and its per-call
copy. -/
structure Heap where
  cells : List ParamDict

/-- Dereference. -/
def Heap.get (h : Heap) (r : Nat) : ParamDict := h.cells.getD r []

/-- Destructive update of the dict object behind a reference. -/
def Heap.set (h : Heap) (r : Nat) (d : ParamDict) : Heap := Heap.mk (h.cells.set r d)

/-- Allocate a fresh dict object (Python `dict.copy()` allocates); returns
the new heap and the fresh reference. -/
def Heap.alloc (h : Heap) (d : ParamDict) : Heap × Nat :=
  (Heap.mk (h.cells ++ [d]), h.cells.length)

theorem listGetD_set_of_ne {α : Type} (l : List α) (i j : Nat) (x dflt : α)
    (hij : i ≠ j) : (l.set i x).getD j dflt = l.getD j dflt := by
  induction l generalizing i j with
  | nil => rfl
  | cons a t ih =>
    cases i with
    | zero =>
      cases j with
      | zero => exact absurd rfl hij
      | succ j => simp [List.getD]
    | succ i =>
      cases j with
      | zero => simp [List.getD]
      | succ j =>
        have : i ≠ j := fun e => hij (by rw [e])
        simp only [List.set]
        simp [List.getD, List.getElem?_cons_succ] at ih ⊢
        exact ih i j this

theorem Heap.get_set_of_ne (h : Heap) (i j : Nat) (d : ParamDict) (hij : i ≠ j) :
    Heap.get (Heap.set h i d) j = Heap.get h j :=
  listGetD_set_of_ne h.cells i j d [] hij

theorem Heap.get_alloc_of_lt (h : Heap) (d : ParamDict) (j : Nat)
    (hj : j < h.cells.length) : Heap.get (Heap.alloc h d).1 j = Heap.get h j :=
  List.getD_append h.cells [d] [] j hj

/-- The key `"resultOffset"` rewritten on every paginated request. -/
def resultOffsetKey : PyStr := "resultOffset".data

/-- The `while unbroken_chain` loop body of `ArcGIS.get_all_sheet_to_df`
(source lines 264-274), as a fuel-indexed recursion.  `currRef` is the
reference to the per-call copy `curr_params`; `total` is `total_offset`;
`reqs` records, per HTTP request issued, the dict contents sent as query
parameters; `dfs` is the accumulated `_dfs` list; `idx` numbers the next
request.  `none` means the fuel ran out with the server still reporting
`exceededTransferLimit`. -/
def get_all_sheet_loop (server : Nat → ArcResponse) (currRef : Nat) :
    Nat → Heap → Nat → List ParamDict → List (List ParamDict) → Nat →
      Option (Heap × List ParamDict × List (List ParamDict))
  | 0, _, _, _, _, _ => none
  | fuel + 1, h, total, reqs, dfs, idx =>
    let h2 := Heap.set h currRef
      (dictUpdate (Heap.get h currRef) resultOffsetKey (ParamVal.int total))
    let sent := Heap.get h2 currRef
    let res := server idx
    let dfs2 := dfs ++ [arcgis_json_to_df res]
    let total2 := total + res.features.length
    let reqs2 := reqs ++ [sent]
    if res.exceededTransferLimit.getD false then
      get_all_sheet_loop server currRef fuel h2 total2 reqs2 dfs2 (idx + 1)
    else
      some (h2, reqs2, dfs2)

/-- The result of a terminating run of `get_all_sheet_to_df`: the final
heap, the query-parameter dicts sent on each HTTP request in order, and the
concatenated DataFrame (`pd.concat(_dfs)`). -/
structure FetchOut where
  heap : Heap
  requests : List ParamDict
  df : List ParamDict

/-- Model of `ArcGIS.get_all_sheet_to_df` (source lines 235-279).
`selfParamsRef` is the reference held in `self.params`; the HTTP server is
abstracted as the function `server` from request number to JSON response;
`fuel` bounds the number of iterations of the unbounded `while` loop
(`none` = still looping after `fuel` iterations). -/
def get_all_sheet_to_df (h0 : Heap) (selfParamsRef : Nat)
    (server : Nat → ArcResponse) (fuel : Nat) : Option FetchOut :=
  let ac := Heap.alloc h0 (Heap.get h0 selfParamsRef)
  let h := ac.1
  let currRef := ac.2
  let sent := Heap.get h currRef
  let res := server 0
  let total := res.features.length
  let dfs := [arcgis_json_to_df res]
  let reqs := [sent]
  if res.exceededTransferLimit.getD false then
    match get_all_sheet_loop server currRef fuel h total reqs dfs 1 with
    | some (h2, reqs2, dfs2) => some (FetchOut.mk h2 reqs2 dfs2.flatten)
    | none => none
  else
    some (FetchOut.mk h reqs dfs.flatten)

/-- C1: for every sequence of server responses whose first two pages report
`exceededTransferLimit: true` and whose third omits the flag (and any scraper
default-parameter dict `d` and fuel at least 2), `get_all_sheet_to_df`
issues exactly 3 requests; the `resultOffset` sent on request 2 equals the
feature count of response 1, the `resultOffset` sent on request 3 equals the
sum of the feature counts of responses 1 and 2, and the returned rows are
the concatenation of the three responses' rows in arrival order. -/
theorem get_all_sheet_three_pages
    (d : ParamDict) (server : Nat → ArcResponse) (k : Nat)
    (h0 : (server 0).exceededTransferLimit = some true)
    (h1 : (server 1).exceededTransferLimit = some true)
    (h2 : (server 2).exceededTransferLimit = none) :
    ∃ out : FetchOut,
      get_all_sheet_to_df (Heap.mk [d]) 0 server (k + 1 + 1) = some out ∧
      out.requests.length = 3 ∧
      dictLookup (out.requests.getD 1 []) resultOffsetKey =
        some (ParamVal.int ((server 0).features.length : Int)) ∧
      dictLookup (out.requests.getD 2 []) resultOffsetKey =
        some (ParamVal.int (((server 0).features.length + (server 1).features.length : Nat) : Int)) ∧
      out.df = arcgis_json_to_df (server 0) ++ arcgis_json_to_df (server 1) ++
        arcgis_json_to_df (server 2) := by
  have e0 : (server 0).exceededTransferLimit.getD false = true := by rw [h0]; rfl
  have e1 : (server 1).exceededTransferLimit.getD false = true := by rw [h1]; rfl
  have e2 : (server 2).exceededTransferLimit.getD false = false := by rw [h2]; rfl
  simp only [get_all_sheet_to_df, get_all_sheet_loop, Heap.alloc, Heap.get, Heap.set,
    e0, e1, e2, if_true, if_false, Bool.false_eq_true, ite_false, ite_true]
  refine ⟨_, rfl, ?_, ?_, ?_, ?_⟩
  · rfl
  · simp [dictLookup_dictUpdate_self]
  · simp [dictLookup_dictUpdate_self]
  · simp [List.append_assoc]

theorem get_all_sheet_loop_terminates (server : Nat → ArcResponse) (currRef : Nat) :
    ∀ (fuel idx : Nat),
      (∃ j, idx ≤ j ∧ j < idx + fuel ∧
        (server j).exceededTransferLimit.getD false = false) →
      ∀ (h : Heap) (total : Nat) (reqs : List ParamDict) (dfs : List (List ParamDict)),
        ∃ r, get_all_sheet_loop server currRef fuel h total reqs dfs idx = some r := by
  intro fuel
  induction fuel with
  | zero =>
    intro idx hex h total reqs dfs
    obtain ⟨j, hj1, hj2, _⟩ := hex
    omega
  | succ n ih =>
    intro idx hex h total reqs dfs
    obtain ⟨j, hj1, hj2, hjf⟩ := hex
    by_cases hc : (server idx).exceededTransferLimit.getD false = true
    · have hne : idx ≠ j := by
        intro e
        rw [e, hjf] at hc
        exact Bool.false_ne_true hc
      have hstep : ∃ j2, idx + 1 ≤ j2 ∧ j2 < (idx + 1) + n ∧
          (server j2).exceededTransferLimit.getD false = false :=
        ⟨j, by omega, by omega, hjf⟩
      obtain ⟨r, hr⟩ := ih (idx + 1) hstep
        (Heap.set h currRef
          (dictUpdate (Heap.get h currRef) resultOffsetKey (ParamVal.int total)))
        (total + (server idx).features.length)
        (reqs ++ [Heap.get (Heap.set h currRef
          (dictUpdate (Heap.get h currRef) resultOffsetKey (ParamVal.int total))) currRef])
        (dfs ++ [arcgis_json_to_df (server idx)])
      refine ⟨r, ?_⟩
      simp only [get_all_sheet_loop, hc, if_true]
      exact hr
    · have hcf : (server idx).exceededTransferLimit.getD false = false :=
        Bool.eq_false_iff.mpr hc
      simp only [get_all_sheet_loop, hcf, Bool.false_eq_true, if_false]
      exact ⟨_, rfl⟩

theorem get_all_sheet_loop_diverges (server : Nat → ArcResponse) (currRef : Nat)
    (hall : ∀ i, (server i).exceededTransferLimit.getD false = true) :
    ∀ (fuel : Nat) (h : Heap) (total : Nat) (reqs : List ParamDict)
      (dfs : List (List ParamDict)) (idx : Nat),
      get_all_sheet_loop server currRef fuel h total reqs dfs idx = none := by
  intro fuel
  induction fuel with
  | zero => intro h total reqs dfs idx; rfl
  | succ n ih =>
    intro h total reqs dfs idx
    simp only [get_all_sheet_loop, hall idx, if_true]
    exact ih _ _ _ _ _

/-- C5: `get_all_sheet_to_df` terminates for every response sequence that
contains a page whose `exceededTransferLimit` is absent or false (with any
fuel bound at least the index of that page), and for a server whose every
response reports the flag true the pagination loop never finishes: no fuel
bound whatsoever suffices, i.e. there is no upper bound on the iteration
count. -/
theorem get_all_sheet_termination_divergence :
    (∀ (d : ParamDict) (server : Nat → ArcResponse) (k fuel : Nat),
        (server k).exceededTransferLimit.getD false = false → k ≤ fuel →
        ∃ out, get_all_sheet_to_df (Heap.mk [d]) 0 server fuel = some out) ∧
    (∀ (d : ParamDict) (server : Nat → ArcResponse),
        (∀ i, (server i).exceededTransferLimit.getD false = true) →
        ∀ fuel, get_all_sheet_to_df (Heap.mk [d]) 0 server fuel = none) := by
  constructor
  · intro d server k fuel hk hle
    by_cases h0 : (server 0).exceededTransferLimit.getD false = true
    · have hk0 : k ≠ 0 := by
        intro e
        rw [e] at hk
        rw [hk] at h0
        exact Bool.false_ne_true h0
      obtain ⟨⟨rh, rreqs, rdfs⟩, hr⟩ :=
        get_all_sheet_loop_terminates server (Heap.alloc (Heap.mk [d])
          (Heap.get (Heap.mk [d]) 0)).2 fuel 1 ⟨k, by omega, by omega, hk⟩
          (Heap.alloc (Heap.mk [d]) (Heap.get (Heap.mk [d]) 0)).1
          ((server 0).features.length)
          [Heap.get (Heap.alloc (Heap.mk [d]) (Heap.get (Heap.mk [d]) 0)).1
            (Heap.alloc (Heap.mk [d]) (Heap.get (Heap.mk [d]) 0)).2]
          [arcgis_json_to_df (server 0)]
      refine ⟨FetchOut.mk rh rreqs rdfs.flatten, ?_⟩
      simp only [get_all_sheet_to_df, h0, if_true, hr]
    · have h0f : (server 0).exceededTransferLimit.getD false = false :=
        Bool.eq_false_iff.mpr h0
      simp only [get_all_sheet_to_df, h0f, Bool.false_eq_true, if_false]
      exact ⟨_, rfl⟩
  · intro d server hall fuel
    simp only [get_all_sheet_to_df, hall 0, if_true,
      get_all_sheet_loop_diverges server _ hall fuel]

theorem get_all_sheet_loop_frame (server : Nat → ArcResponse) (currRef : Nat) :
    ∀ (fuel : Nat) (h : Heap) (total : Nat) (reqs : List ParamDict)
      (dfs : List (List ParamDict)) (idx : Nat)
      (h2 : Heap) (reqs2 : List ParamDict) (dfs2 : List (List ParamDict)),
      get_all_sheet_loop server currRef fuel h total reqs dfs idx =
        some (h2, reqs2, dfs2) →
      ∀ j, j ≠ currRef → Heap.get h2 j = Heap.get h j := by
  intro fuel
  induction fuel with
  | zero => intro h total reqs dfs idx h2 reqs2 dfs2 hrun; exact absurd hrun (by simp [get_all_sheet_loop])
  | succ n ih =>
    intro h total reqs dfs idx h2 reqs2 dfs2 hrun j hj
    simp only [get_all_sheet_loop] at hrun
    by_cases hc : (server idx).exceededTransferLimit.getD false = true
    · rw [if_pos hc] at hrun
      have hstep := ih _ _ _ _ _ _ _ _ hrun j hj
      rw [hstep, Heap.get_set_of_ne _ _ _ _ (fun e => hj e.symm)]
    · rw [if_neg hc] at hrun
      simp only [Option.some.injEq, Prod.mk.injEq] at hrun
      obtain ⟨eh, -, -⟩ := hrun
      rw [← eh, Heap.get_set_of_ne _ _ _ _ (fun e => hj e.symm)]

/-- C9: for every terminating call of `get_all_sheet_to_df`, the dict object
referenced by `self.params` is unchanged in the final heap: the pagination
loop rewrites `resultOffset` only on the per-call copy `curr_params`
allocated by `self.params.copy()`, so the caller's default object is never
corrupted. -/
theorem get_all_sheet_params_not_mutated
    (h0 : Heap) (r : Nat) (server : Nat → ArcResponse) (fuel : Nat)
    (out : FetchOut) (hr : r < h0.cells.length)
    (hrun : get_all_sheet_to_df h0 r server fuel = some out) :
    Heap.get out.heap r = Heap.get h0 r := by
  have hne : r ≠ h0.cells.length := Nat.ne_of_lt hr
  simp only [get_all_sheet_to_df, Heap.alloc] at hrun
  by_cases hc : (server 0).exceededTransferLimit.getD false = true
  · rw [if_pos hc] at hrun
    split at hrun
    · next h2 reqs2 dfs2 heq =>
        obtain rfl : FetchOut.mk h2 reqs2 dfs2.flatten = out := Option.some.inj hrun
        have hframe := get_all_sheet_loop_frame server h0.cells.length fuel
          _ _ _ _ _ _ _ _ heq r hne
        exact hframe.trans (Heap.get_alloc_of_lt h0 (Heap.get h0 r) r hr)
    · exact absurd hrun (by simp)
  · rw [if_neg hc] at hrun
    obtain rfl := Option.some.inj hrun
    exact Heap.get_alloc_of_lt h0 (Heap.get h0 r) r hr

/-- A concrete mock server: page 1 has one feature and reports
`exceededTransferLimit: true`, page 2 has two features and reports the flag
true, page 3 has one feature and omits the flag. -/
def wServerPages : Nat → ArcResponse := fun i =>
  if i = 0 then ArcResponse.mk [Feature.mk []] (some true)
  else if i = 1 then ArcResponse.mk [Feature.mk [], Feature.mk []] (some true)
  else ArcResponse.mk [Feature.mk []] none

/-- Witness: C1's theorem applied to the concrete mock server
`wServerPages` with an empty default-parameter dict and minimal fuel. -/
theorem get_all_sheet_three_pages_witness :
    ∃ out : FetchOut,
      get_all_sheet_to_df (Heap.mk [[]]) 0 wServerPages (0 + 1 + 1) = some out ∧
      out.requests.length = 3 ∧
      dictLookup (out.requests.getD 1 []) resultOffsetKey =
        some (ParamVal.int ((wServerPages 0).features.length : Int)) ∧
      dictLookup (out.requests.getD 2 []) resultOffsetKey =
        some (ParamVal.int
          (((wServerPages 0).features.length + (wServerPages 1).features.length : Nat) : Int)) ∧
      out.df = arcgis_json_to_df (wServerPages 0) ++ arcgis_json_to_df (wServerPages 1) ++
        arcgis_json_to_df (wServerPages 2) :=
  get_all_sheet_three_pages [] wServerPages 0 rfl rfl rfl

/-- A concrete mock server whose every response reports
`exceededTransferLimit: true`. -/
def wServerAllTrue : Nat → ArcResponse := fun _ => ArcResponse.mk [] (some true)

/-- Witness: C5's theorem applied to the mock server `wServerPages` (whose
page 2 omits the flag, so the fetch terminates) and to `wServerAllTrue`
(which loops past any fuel bound, here 5). -/
theorem get_all_sheet_termination_divergence_witness :
    (∃ out, get_all_sheet_to_df (Heap.mk [[]]) 0 wServerPages 2 = some out) ∧
    get_all_sheet_to_df (Heap.mk [[]]) 0 wServerAllTrue 5 = none :=
  ⟨get_all_sheet_termination_divergence.1 [] wServerPages 2 2 rfl (Nat.le_refl 2),
   get_all_sheet_termination_divergence.2 [] wServerAllTrue (fun _ => rfl) 5⟩

/-- The `ArcGIS.__init__` default parameter dict, used as a concrete
`self.params` in the C9 witness. -/
def wParams : ParamDict :=
  [("f".data, ParamVal.str "json".data),
   ("where".data, ParamVal.str "1=1".data),
   ("outFields".data, ParamVal.str "*".data),
   ("returnGeometry".data, ParamVal.str "false".data)]

/-- A concrete mock server answering every request with no features and no
`exceededTransferLimit` flag. -/
def wServerOnePage : Nat → ArcResponse := fun _ => ArcResponse.mk [] none

/-- Witness: C9's theorem applied to a concrete one-cell heap holding the
default parameter dict, with a one-page server. -/
theorem get_all_sheet_params_not_mutated_witness :
    Heap.get (FetchOut.mk (Heap.mk [wParams, wParams]) [wParams] []).heap 0 =
      Heap.get (Heap.mk [wParams]) 0 :=
  get_all_sheet_params_not_mutated (Heap.mk [wParams]) 0 wServerOnePage 3
    (FetchOut.mk (Heap.mk [wParams, wParams]) [wParams] []) (by decide) rfl

end CanScrapers
